import Mathlib

/-
Verification of the reliability core of the vastar connector runtime.

Shallow embedding of:
  - examples-python/gemini-streams-sse-connector/main.py
    (DynamicSemaphore, CircuitBreaker, adjust_concurrency, build_response,
     call_gemini, handle, worker, frame writing)
  - sdk-python/vastar_connector_sdk/runtime_client.py (frame send/receive)
  - sdk-python/vastar_connector_sdk/types.py (constants, ErrorClass)

Machine floats of the source (latency averages, time.time()) are modelled as
rationals and natural-number timestamps; all other data is translated
directly.
-/

-- ==========================================================
-- Tuning constants (main.py, module level)
-- ==========================================================

def MAX_INFLIGHT_BASE : Nat := 80

def MIN_INFLIGHT : Nat := 30

def MAX_QUEUE : Nat := 200

def MAX_RETRY : Nat := 2

def STEP : Nat := 4

def LATENCY_THRESHOLD : ℚ := 10000

/- LATENCY_THRESHOLD * 0.65, the lower watermark of adjust_concurrency,
   written as the folded constant 10000 * 0.65 = 6500. -/
def LOW_WATERMARK : ℚ := 6500

set_option maxRecDepth 20000

-- ==========================================================
-- CircuitBreaker (main.py class CircuitBreaker)
-- ==========================================================

structure CircuitBreaker where
  failures : Nat
  fail_threshold : Nat
  open_until : Nat
  reset_after : Nat
deriving DecidableEq

/- breaker = CircuitBreaker() with defaults fail_threshold=12, reset_after=10 -/
def CircuitBreaker.init : CircuitBreaker :=
  { failures := 0, fail_threshold := 12, open_until := 0, reset_after := 10 }

/- allow(): time.time() >= self.open_until -/
def CircuitBreaker.allow (b : CircuitBreaker) (now : Nat) : Bool :=
  decide (b.open_until ≤ now)

/- success(): self.failures = 0 -/
def CircuitBreaker.success (b : CircuitBreaker) : CircuitBreaker :=
  { b with failures := 0 }

/- failure(): increment; on reaching the threshold open for reset_after and
   clear the counter -/
def CircuitBreaker.failure (b : CircuitBreaker) (now : Nat) : CircuitBreaker :=
  if b.fail_threshold ≤ b.failures + 1 then
    { b with failures := 0, open_until := now + b.reset_after }
  else
    { b with failures := b.failures + 1 }

/- A run of consecutive failure() calls at the given timestamps. -/
def failRun (b : CircuitBreaker) (ts : List Nat) : CircuitBreaker :=
  ts.foldl CircuitBreaker.failure b

-- ==========================================================
-- DynamicSemaphore (main.py class DynamicSemaphore)
-- ==========================================================

/- `value` is the Python `_value` field (the intended limit), `avail` the
   number of permits currently grantable by the wrapped asyncio.Semaphore,
   `held` the number of permits currently held (acquired minus released). -/
structure DynamicSemaphore where
  value : Nat
  avail : Nat
  held : Nat
deriving DecidableEq

/- semaphore = DynamicSemaphore(MAX_INFLIGHT) with MAX_INFLIGHT = 80 -/
def DynamicSemaphore.init : DynamicSemaphore :=
  { value := MAX_INFLIGHT_BASE, avail := MAX_INFLIGHT_BASE, held := 0 }

/- acquire(): takes a permit when one is available; a blocked acquirer
   leaves the state unchanged. -/
def DynamicSemaphore.acquire (s : DynamicSemaphore) : DynamicSemaphore :=
  if 0 < s.avail then { s with avail := s.avail - 1, held := s.held + 1 } else s

/- release(): returns a permit to the pool. -/
def DynamicSemaphore.release (s : DynamicSemaphore) : DynamicSemaphore :=
  { s with avail := s.avail + 1, held := s.held - 1 }

/- resize(new_value): delta = new_value - _value; _value = new_value;
   if delta > 0, release delta extra permits.  Nothing is removed from the
   underlying semaphore when delta < 0. -/
def DynamicSemaphore.resize (s : DynamicSemaphore) (new_value : Nat) : DynamicSemaphore :=
  if s.value < new_value then
    { s with value := new_value, avail := s.avail + (new_value - s.value) }
  else
    { s with value := new_value }

inductive SemOp
  | acquire
  | release
  | resize (n : Nat)
deriving DecidableEq

def semStep (s : DynamicSemaphore) : SemOp → DynamicSemaphore
  | SemOp.acquire => s.acquire
  | SemOp.release => s.release
  | SemOp.resize n => s.resize n

def semRun (ops : List SemOp) : DynamicSemaphore :=
  ops.foldl semStep DynamicSemaphore.init

-- ==========================================================
-- Adaptive concurrency (main.py adjust_concurrency)
-- ==========================================================

/- One adjustment step: `cur` is the global MAX_INFLIGHT, `avg` the mean of
   recent_latencies (in ms).  Returns the new MAX_INFLIGHT; the semaphore is
   resized to the returned value exactly when it differs from `cur`. -/
def adjust_concurrency (cur : Nat) (avg : ℚ) : Nat :=
  let new_value :=
    if LATENCY_THRESHOLD < avg then max MIN_INFLIGHT (cur - STEP)
    else if avg < LOW_WATERMARK then min MAX_INFLIGHT_BASE (cur + STEP)
    else cur
  if STEP ≤ (if cur ≤ new_value then new_value - cur else cur - new_value) then new_value
  else cur

/- The adjustment step under a constant above-threshold latency average. -/
def hiStep (c : Nat) : Nat := adjust_concurrency c 20000

/- The adjustment step under a constant below-watermark latency average. -/
def loStep (c : Nat) : Nat := adjust_concurrency c 1000

-- ==========================================================
-- ErrorClass (types.py) and response frames (build_response)
-- ==========================================================

def ErrorClass.SUCCESS : Nat := 0

def ErrorClass.TRANSIENT : Nat := 1

def ErrorClass.PERMANENT : Nat := 2

def ErrorClass.RATE_LIMITED : Nat := 3

def ErrorClass.TIMEOUT : Nat := 4

def ErrorClass.INVALID_REQUEST : Nat := 5

/- The JSON dict passed to build_response by handle: a status code and a
   body (None is a possible body, since call_gemini can return None). -/
structure RespPayload where
  status : Nat
  body : Option String
deriving DecidableEq

/- The ExecuteResponse record built by build_response.  The source always
   writes ErrorClass.SUCCESS and Done=True, whatever the payload. -/
structure RespFrame where
  request_id : Nat
  error_class : Nat
  payload : RespPayload
  done : Bool
deriving DecidableEq

def build_response (request_id : Nat) (payload : RespPayload) : RespFrame :=
  { request_id := request_id
    error_class := ErrorClass.SUCCESS
    payload := payload
    done := true }

-- ==========================================================
-- call_gemini (main.py) and the per-request dispatcher (handle/worker)
-- ==========================================================

/- Observable actions of one dispatched request. -/
inductive Ev
  | semAcquire
  | semRelease
  | httpPost
  | sleep1
  | brSuccess
  | brFailure
  | frame (f : RespFrame)
deriving DecidableEq

/- Outcome of one downstream HTTP attempt: the extracted candidate text, or
   any raised error (network failure, non-2xx, missing JSON field). -/
inductive AttemptResult
  | ok (text : String)
  | err
deriving DecidableEq

/- The retry loop body of call_gemini: for _ in range(MAX_RETRY + 1), post;
   return the text on success; on any exception sleep 1 second and continue.
   Falls off the end of the loop returning None when every attempt fails. -/
def retryLoop : List AttemptResult → List Ev × Option String
  | [] => ([], none)
  | AttemptResult.ok t :: _ => ([Ev.httpPost], some t)
  | AttemptResult.err :: rest =>
      let r := retryLoop rest
      (Ev.httpPost :: Ev.sleep1 :: r.1, r.2)

/- The simulator section of config.yaml. -/
structure SimCfg where
  enabled : Bool
  base_url : String
deriving DecidableEq

/- String.startsWith, restated structurally over the character lists so that
   it evaluates inside the kernel. -/
def strStartsWith (s pre : String) : Bool :=
  pre.toList.isPrefixOf s.toList

deriving instance DecidableEq for Except

/- call_gemini: the security gate, then the retry loop.  `attempts` gives the
   outcome each successive HTTP attempt would have.  Returns the events
   performed and either the raised RuntimeError message or the value the
   Python function returns (None when retries are exhausted). -/
def call_gemini (cfg : SimCfg) (_prompt : String) (attempts : List AttemptResult) :
    List Ev × Except String (Option String) :=
  if cfg.enabled then
    if strStartsWith cfg.base_url "http://127.0.0.1" then
      let r := retryLoop (attempts.take (MAX_RETRY + 1))
      (r.1, Except.ok r.2)
    else ([], Except.error "Simulator must be localhost only")
  else ([], Except.error "External access blocked by security policy")

/- Inputs and environment of one handle() invocation: the globals it reads,
   the request fields it uses and the behaviour of the outside world. -/
structure HandleIn where
  shutting_down : Bool
  inflight : Nat
  request_id : Nat
  breaker : CircuitBreaker
  now : Nat
  parse_ok : Bool
  prompt : String
  cfg : SimCfg
  attempts : List AttemptResult
  timed_out : Bool
deriving DecidableEq

/- The try-block of handle(): circuit check, payload parse, then
   asyncio.wait_for(call_gemini(...), 70).  Any raise is Except.error. -/
def tryBlock (i : HandleIn) : List Ev × Except Unit (Option String) :=
  if i.breaker.allow i.now = false then ([], Except.error ())
  else if i.parse_ok = false then ([], Except.error ())
  else
    let r := call_gemini i.cfg i.prompt i.attempts
    if i.timed_out then (r.1, Except.error ())
    else
      (r.1,
       match r.2 with
       | Except.error _ => Except.error ()
       | Except.ok a => Except.ok a)

/- handle(): early return while shutting down; queue-depth check against
   MAX_QUEUE with a synthetic 503 on overflow; otherwise the try-block,
   breaker bookkeeping and exactly one response frame. -/
def handle (i : HandleIn) : List Ev × CircuitBreaker :=
  if i.shutting_down then ([], i.breaker)
  else if MAX_QUEUE ≤ i.inflight then
    ([Ev.frame (build_response i.request_id ⟨503, some "Overloaded"⟩)], i.breaker)
  else
    match tryBlock i with
    | (evs, Except.ok a) =>
        (evs ++ [Ev.brSuccess, Ev.frame (build_response i.request_id ⟨200, a⟩)],
         i.breaker.success)
    | (evs, Except.error _) =>
        (evs ++ [Ev.brFailure, Ev.frame (build_response i.request_id ⟨500, some "Internal Error"⟩)],
         i.breaker.failure i.now)

/- worker(): semaphore.acquire(); handle(...); finally semaphore.release(). -/
def worker (i : HandleIn) : List Ev × CircuitBreaker :=
  let r := handle i
  (Ev.semAcquire :: r.1 ++ [Ev.semRelease], r.2)

/- The response frames among a list of events. -/
def framesOf (evs : List Ev) : List RespFrame :=
  evs.filterMap fun e =>
    match e with
    | Ev.frame f => some f
    | _ => none

/- A sequence of requests dispatched one after another through handle,
   sharing the breaker; each element of ts is one request's timestamp. -/
def dispatchRun (base : HandleIn) (b : CircuitBreaker) (ts : List Nat) : CircuitBreaker :=
  ts.foldl (fun br t => (handle { base with breaker := br, now := t }).2) b

-- ==========================================================
-- Frame layer (runtime_client.py and the framing in main.py)
-- ==========================================================

def FRAME_LENGTH_SIZE : Nat := 4

def MESSAGE_TYPE_SIZE : Nat := 1

def MAX_PAYLOAD_SIZE : Nat := 10 * 1024 * 1024

/- struct.pack(">I", n): four big-endian bytes (n < 2^32 in the source). -/
def be32 (n : Nat) : List Nat :=
  [n / 16777216 % 256, n / 65536 % 256, n / 256 % 256, n % 256]

/- struct.pack("<I", n): four little-endian bytes. -/
def le32 (n : Nat) : List Nat :=
  [n % 256, n / 256 % 256, n / 65536 % 256, n / 16777216 % 256]

/- struct.unpack("<I", header)[0] as used by the main.py read loop. -/
def le32dec (l : List Nat) : Nat :=
  match l with
  | [a, b, c, d] => a + 256 * b + 65536 * c + 16777216 * d
  | _ => 0

/- RuntimeClient._send_frame: total_len = MESSAGE_TYPE_SIZE + len(payload);
   frame = pack(">I", total_len) + [message_type] + payload. -/
def send_frame (message_type : Nat) (payload : List Nat) : List Nat :=
  be32 (MESSAGE_TYPE_SIZE + payload.length) ++ message_type :: payload

/- The framing applied by main.py build_response and read back by main():
   struct.pack("<I", len(buf)) + buf — no message-type byte. -/
def connectorFrame (buf : List Nat) : List Nat :=
  le32 buf.length ++ buf

/- The size extraction of main.py main(): header = readexactly(4);
   size = unpack("<I", header)[0].  There is no size-cap branch. -/
def connectorReadSize (hdr : List Nat) : Nat := le32dec hdr

/- RuntimeClient._wait_for_response: if frame_length > MAX_PAYLOAD_SIZE,
   raise ValueError, else accept the length. -/
def sdkCheckFrameLength (n : Nat) : Except String Nat :=
  if MAX_PAYLOAD_SIZE < n then Except.error "Invalid frame length" else Except.ok n

/-- Modelled from the spec: the claimed wire layout of every frame — a 4-byte
big-endian unsigned length counting the 1-byte message type plus payload,
followed by the type byte and the payload. -/
def specFrameLayout (frame : List Nat) : Bool :=
  decide (5 ≤ frame.length) && decide (frame.take 4 = be32 (frame.length - 4))

-- ==========================================================
-- Spec-side reading of the security gate (for the refinement claim C9)
-- ==========================================================

/-- Modelled from the spec: the destination host of a base URL — the
characters after the "http://" scheme separator, up to the first slash,
colon or end of string — used to state what a destination on loopback
127.0.0.1 means. -/
def urlHost (u : String) : List Char :=
  (u.toList.drop 7).takeWhile fun c => (c != '/') && (c != ':')

def exceptIsError (e : Except String (Option String)) : Bool :=
  match e with
  | Except.error _ => true
  | Except.ok _ => false

-- ==========================================================
-- Concrete inputs used by witnesses and counterexamples
-- ==========================================================

def cfgLocal : SimCfg := ⟨true, "http://127.0.0.1:8000"⟩

def iBase : HandleIn :=
  { shutting_down := false
    inflight := 0
    request_id := 7
    breaker := CircuitBreaker.init
    now := 0
    parse_ok := true
    prompt := "ping"
    cfg := cfgLocal
    attempts := [AttemptResult.err, AttemptResult.err, AttemptResult.err]
    timed_out := false }

def iTimeout : HandleIn := { iBase with timed_out := true }

def iOverload : HandleIn := { iBase with inflight := MAX_QUEUE, request_id := 9 }

def cfgEvil : SimCfg := ⟨true, "http://127.0.0.1.evil.com/api"⟩

-- ==========================================================
-- Shared lemmas
-- ==========================================================

/- Fewer consecutive failures than the threshold only count up: the breaker
   neither trips nor touches open_until. -/
theorem failRun_no_trip (ts : List Nat) (b : CircuitBreaker)
    (h : b.failures + ts.length < b.fail_threshold) :
    failRun b ts = { b with failures := b.failures + ts.length } := by
  induction ts generalizing b with
  | nil => simp [failRun]
  | cons t rest ih =>
      have h1 : ¬ b.fail_threshold ≤ b.failures + 1 := by
        simp only [List.length_cons] at h; omega
      have hstep : CircuitBreaker.failure b t = { b with failures := b.failures + 1 } := by
        simp [CircuitBreaker.failure, h1]
      have hrest : b.failures + 1 + rest.length < b.fail_threshold := by
        simp only [List.length_cons] at h; omega
      simp only [failRun, List.foldl_cons, hstep]
      have := ih { b with failures := b.failures + 1 } (by simpa using hrest)
      simp only [failRun] at this
      rw [this]
      simp only [CircuitBreaker.mk.injEq, List.length_cons]
      refine ⟨by omega, trivial, trivial, trivial⟩

/- The retry loop only performs HTTP attempts and sleeps. -/
theorem retryLoop_events (l : List AttemptResult) :
    ∀ e ∈ (retryLoop l).1, e = Ev.httpPost ∨ e = Ev.sleep1 := by
  induction l with
  | nil => simp [retryLoop]
  | cons a rest ih =>
      cases a with
      | ok t => simp [retryLoop]
      | err =>
          intro e he
          simp only [retryLoop, List.mem_cons] at he
          rcases he with h | h | h
          · exact Or.inl h
          · exact Or.inr h
          · exact ih e h

/- call_gemini only performs HTTP attempts and sleeps. -/
theorem call_gemini_events (cfg : SimCfg) (p : String) (attempts : List AttemptResult) :
    ∀ e ∈ (call_gemini cfg p attempts).1, e = Ev.httpPost ∨ e = Ev.sleep1 := by
  unfold call_gemini
  split_ifs with h1 h2
  · simpa using retryLoop_events (attempts.take (MAX_RETRY + 1))
  · simp
  · simp

/- The try-block of handle() only performs HTTP attempts and sleeps: no
   frame writes, no breaker bookkeeping. -/
theorem tryBlock_events (i : HandleIn) :
    ∀ e ∈ (tryBlock i).1, e = Ev.httpPost ∨ e = Ev.sleep1 := by
  unfold tryBlock
  split_ifs with h1 h2 h3
  · simp
  · simp
  · simpa using call_gemini_events i.cfg i.prompt i.attempts
  · simpa using call_gemini_events i.cfg i.prompt i.attempts

theorem framesOf_tryBlock (i : HandleIn) : framesOf (tryBlock i).1 = [] := by
  rw [framesOf, List.filterMap_eq_nil_iff]
  intro e he
  rcases tryBlock_events i e he with rfl | rfl <;> rfl

theorem brSuccess_not_in_tryBlock (i : HandleIn) : Ev.brSuccess ∉ (tryBlock i).1 := by
  intro hmem
  rcases tryBlock_events i _ hmem with h | h <;> exact absurd h (by decide)

theorem brFailure_not_in_tryBlock (i : HandleIn) : Ev.brFailure ∉ (tryBlock i).1 := by
  intro hmem
  rcases tryBlock_events i _ hmem with h | h <;> exact absurd h (by decide)

/- The semaphore wrapper adds no frames: worker writes what handle writes. -/
theorem worker_frames (i : HandleIn) : framesOf (worker i).1 = framesOf (handle i).1 := by
  simp [worker, framesOf, List.filterMap_cons, List.filterMap_append]

/- Past the queue check, handle ends in exactly one of two ways: the success
   frame with breaker.success(), or the generic failure frame with
   breaker.failure(). -/
theorem handle_frames (i : HandleIn)
    (h1 : i.shutting_down = false) (h2 : i.inflight < MAX_QUEUE) :
    (∃ a, framesOf (handle i).1 = [build_response i.request_id ⟨200, a⟩]
          ∧ (handle i).2 = i.breaker.success
          ∧ Ev.brSuccess ∈ (handle i).1)
    ∨ (framesOf (handle i).1 = [build_response i.request_id ⟨500, some "Internal Error"⟩]
          ∧ (handle i).2 = i.breaker.failure i.now
          ∧ Ev.brFailure ∈ (handle i).1) := by
  have hq : ¬ MAX_QUEUE ≤ i.inflight := by omega
  have hf := framesOf_tryBlock i
  unfold handle
  rcases htb : tryBlock i with ⟨evs, r⟩
  have hf' : List.filterMap (fun e => match e with | Ev.frame f => some f | _ => none) evs
      = [] := by
    rw [htb] at hf; simpa [framesOf] using hf
  cases r with
  | ok a =>
      left
      refine ⟨a, ?_, ?_, ?_⟩
      · simp [h1, hq, framesOf, List.filterMap_append, hf']
      · simp [h1, hq]
      · simp [h1, hq]
  | error u =>
      right
      refine ⟨?_, ?_, ?_⟩
      · simp [h1, hq, framesOf, List.filterMap_append, hf']
      · simp [h1, hq]
      · simp [h1, hq]

/- A request dispatched while the breaker refuses goes down the generic
   failure path: exactly the brFailure event, the 500 frame, and a
   breaker.failure() call. -/
theorem handle_circuit_open (i : HandleIn)
    (h1 : i.shutting_down = false) (h2 : i.inflight < MAX_QUEUE)
    (h3 : i.breaker.allow i.now = false) :
    handle i =
      ([Ev.brFailure, Ev.frame (build_response i.request_id ⟨500, some "Internal Error"⟩)],
       i.breaker.failure i.now) := by
  have hq : ¬ MAX_QUEUE ≤ i.inflight := by omega
  unfold handle tryBlock
  simp [h1, hq, h3]

/- Requests dispatched inside the open window, too few to re-trip, each count
   one failure and leave open_until alone. -/
theorem dispatchRun_open_no_trip (base : HandleIn)
    (h1 : base.shutting_down = false) (h2 : base.inflight < MAX_QUEUE)
    (ts : List Nat) :
    ∀ b : CircuitBreaker,
      (∀ u ∈ ts, u < b.open_until) →
      b.failures + ts.length < b.fail_threshold →
      dispatchRun base b ts = { b with failures := b.failures + ts.length } := by
  induction ts with
  | nil => intro b _ _; simp [dispatchRun]
  | cons t rest ih =>
      intro b hmem hcnt
      have ht : t < b.open_until := hmem t (by simp)
      have hallow : ({ base with breaker := b, now := t } : HandleIn).breaker.allow
          ({ base with breaker := b, now := t } : HandleIn).now = false := by
        simp [CircuitBreaker.allow]; omega
      have hstep : (handle { base with breaker := b, now := t }).2 = b.failure t := by
        rw [handle_circuit_open { base with breaker := b, now := t } h1 h2 hallow]
      have hfail : b.failure t = { b with failures := b.failures + 1 } := by
        have : ¬ b.fail_threshold ≤ b.failures + 1 := by
          simp only [List.length_cons] at hcnt; omega
        simp [CircuitBreaker.failure, this]
      have hrest := ih { b with failures := b.failures + 1 }
        (by intro u hu; exact hmem u (List.mem_cons_of_mem t hu))
        (by simp only [List.length_cons] at hcnt; simpa using by omega)
      simp only [dispatchRun, List.foldl_cons, hstep, hfail]
      simp only [dispatchRun] at hrest
      rw [hrest]
      simp only [CircuitBreaker.mk.injEq, List.length_cons]
      refine ⟨by omega, trivial, trivial, trivial⟩

/- The four terminal shapes of handle: shutdown drop, queue-overflow 503,
   success path, failure path.  On the two dispatch paths, the try-block
   events carry no frames and no breaker events. -/
theorem handle_cases (i : HandleIn) :
    handle i = ([], i.breaker)
    ∨ handle i = ([Ev.frame (build_response i.request_id ⟨503, some "Overloaded"⟩)], i.breaker)
    ∨ (∃ evs a, framesOf evs = [] ∧ Ev.brFailure ∉ evs ∧ Ev.brSuccess ∉ evs
        ∧ handle i = (evs ++ [Ev.brSuccess, Ev.frame (build_response i.request_id ⟨200, a⟩)],
            i.breaker.success))
    ∨ (∃ evs, framesOf evs = [] ∧ Ev.brFailure ∉ evs ∧ Ev.brSuccess ∉ evs
        ∧ handle i = (evs ++ [Ev.brFailure,
              Ev.frame (build_response i.request_id ⟨500, some "Internal Error"⟩)],
            i.breaker.failure i.now)) := by
  have hf := framesOf_tryBlock i
  have hnf := brFailure_not_in_tryBlock i
  have hns := brSuccess_not_in_tryBlock i
  by_cases h1 : i.shutting_down = true
  · left
    unfold handle; simp [h1]
  · have h1' : i.shutting_down = false := by
      cases hsd : i.shutting_down
      · rfl
      · exact absurd hsd h1
    by_cases h2 : MAX_QUEUE ≤ i.inflight
    · right; left
      unfold handle; simp [h1', h2]
    · rcases htb : tryBlock i with ⟨evs, r⟩
      rw [htb] at hf hnf hns
      cases r with
      | ok a =>
          right; right; left
          refine ⟨evs, a, hf, hnf, hns, ?_⟩
          unfold handle
          rw [htb]
          simp [h1', h2]
      | error u =>
          right; right; right
          refine ⟨evs, hf, hnf, hns, ?_⟩
          unfold handle
          rw [htb]
          simp [h1', h2]

-- ==========================================================
-- Claim theorems
-- ==========================================================

/-- C3: evidence that the admission-controller invariant fails in the code.
resize never removes permits from the wrapped semaphore on a downward
resize, so after resize(30) thirty-one concurrent acquirers all obtain a
permit at once (held = 31 > 30 = currentLimit), and a downward-then-upward
resize pair (80 → 76 → 80, both deltas of magnitude STEP as produced by
adjust_concurrency) mints four extra permits, letting held = 84 exceed
MAX_INFLIGHT_BASE = 80. -/
theorem C3_resize_leaks_permits :
    (semRun (SemOp.resize 30 :: List.replicate 31 SemOp.acquire)).value = 30
    ∧ (semRun (SemOp.resize 30 :: List.replicate 31 SemOp.acquire)).held = 31
    ∧ ¬ ((semRun (SemOp.resize 30 :: List.replicate 31 SemOp.acquire)).held
          ≤ (semRun (SemOp.resize 30 :: List.replicate 31 SemOp.acquire)).value)
    ∧ (semRun (SemOp.resize 76 :: SemOp.resize 80 :: List.replicate 84 SemOp.acquire)).held = 84
    ∧ ¬ ((semRun (SemOp.resize 76 :: SemOp.resize 80 :: List.replicate 84 SemOp.acquire)).held
          ≤ MAX_INFLIGHT_BASE) := by decide

/-- C4 counterexample: under a constant above-threshold latency average the
limit descends 80 → 76 → ... → 36 → 32 in twelve adjustments and then sticks
at 32 forever: the proposed move to MIN_INFLIGHT = 30 has magnitude 2 < STEP,
so it is never applied, and the limit never reaches MIN_INFLIGHT — contrary
to the claim that it decreases until reaching 30. -/
theorem C4_limit_never_reaches_min :
    hiStep^[12] 80 = 32 ∧ hiStep^[13] 80 = 32 ∧ hiStep 32 = 32
    ∧ MIN_INFLIGHT < 32 := by decide

/-- C4 amended: with the average above LATENCY_THRESHOLD each adjustment
decreases the limit by exactly STEP while the limit is at least
MIN_INFLIGHT + STEP, and leaves it unchanged once the limit is within STEP
above MIN_INFLIGHT (so, starting from MAX_INFLIGHT_BASE = 80, the limit
descends to 32 and stays there for all further adjustments, never reaching
MIN_INFLIGHT = 30); with the average below 0.65 × LATENCY_THRESHOLD the
limit rises by exactly STEP up to MAX_INFLIGHT_BASE, and is unchanged within
STEP below it. -/
theorem C4_adjust_steps (avg : ℚ) (cur : Nat) :
    (LATENCY_THRESHOLD < avg →
        (MIN_INFLIGHT + STEP ≤ cur → adjust_concurrency cur avg = cur - STEP)
        ∧ (MIN_INFLIGHT ≤ cur → cur < MIN_INFLIGHT + STEP →
            adjust_concurrency cur avg = cur))
    ∧ (avg < LOW_WATERMARK →
        (cur + STEP ≤ MAX_INFLIGHT_BASE → adjust_concurrency cur avg = cur + STEP)
        ∧ (MAX_INFLIGHT_BASE - STEP < cur → cur ≤ MAX_INFLIGHT_BASE →
            adjust_concurrency cur avg = cur))
    ∧ (∀ k, hiStep^[12 + k] 80 = 32) := by
  refine ⟨?_, ?_, ?_⟩
  · intro h
    have hno : ¬ avg < LOW_WATERMARK := by
      simp only [LATENCY_THRESHOLD, LOW_WATERMARK] at h ⊢
      intro hc; linarith
    constructor
    · intro hcur
      simp only [adjust_concurrency, if_pos h, MIN_INFLIGHT, STEP] at *
      split_ifs <;> omega
    · intro hlo hhi
      simp only [adjust_concurrency, if_pos h, MIN_INFLIGHT, STEP] at *
      split_ifs <;> omega
  · intro h
    have hno : ¬ LATENCY_THRESHOLD < avg := by
      simp only [LATENCY_THRESHOLD, LOW_WATERMARK] at h ⊢
      intro hc; linarith
    constructor
    · intro hcur
      simp only [adjust_concurrency, if_neg hno, if_pos h, MAX_INFLIGHT_BASE, STEP] at *
      split_ifs <;> omega
    · intro hlo hhi
      simp only [adjust_concurrency, if_neg hno, if_pos h, MAX_INFLIGHT_BASE, STEP] at *
      split_ifs <;> omega
  · intro k
    have h12 : hiStep^[12] 80 = 32 := by decide
    have hfix : hiStep 32 = 32 := by decide
    rw [Nat.add_comm, Function.iterate_add_apply, h12, Function.iterate_fixed hfix]

/-- C4 witness: a concrete above-threshold adjustment from limit 40. -/
theorem C4_adjust_steps_witness : adjust_concurrency 40 20000 = 36 :=
  ((C4_adjust_steps 20000 40).1 (by norm_num [LATENCY_THRESHOLD])).1
    (by norm_num [MIN_INFLIGHT, STEP])

/-- C7: starting from a clear counter, after exactly fail_threshold = 12
consecutive failure() calls with no intervening success() the counter is
reset to 0 on the trip, open_until becomes the trip time plus
reset_after = 10, allow() is false before those 10 seconds have elapsed and
true exactly from then on; any shorter run of consecutive failures only
counts up and never touches open_until; and a single success() resets the
counter to 0. -/
theorem C7_breaker_trip (b : CircuitBreaker) (ts : List Nat) (t : Nat)
    (hth : b.fail_threshold = 12) (hra : b.reset_after = 10)
    (h0 : b.failures = 0) (hlen : ts.length = 11) :
    (failRun b (ts ++ [t])).failures = 0
    ∧ (failRun b (ts ++ [t])).open_until = t + 10
    ∧ (∀ now, (failRun b (ts ++ [t])).allow now = true ↔ t + 10 ≤ now)
    ∧ (∀ k, k ≤ 11 →
        (failRun b (ts.take k)).failures = k
        ∧ (failRun b (ts.take k)).open_until = b.open_until)
    ∧ (∀ c : CircuitBreaker, c.success.failures = 0) := by
  have hmain : failRun b (ts ++ [t]) = { b with failures := 0, open_until := t + 10 } := by
    have h1 : failRun b ts = { b with failures := 11 } := by
      have := failRun_no_trip ts b (by omega)
      rw [this, h0]
      simp [hlen]
    have h2 : failRun b (ts ++ [t]) = CircuitBreaker.failure (failRun b ts) t := by
      simp [failRun, List.foldl_append]
    rw [h2, h1]
    simp [CircuitBreaker.failure, hth, hra]
  refine ⟨by rw [hmain], by rw [hmain], ?_, ?_, ?_⟩
  · intro now
    rw [hmain]
    simp [CircuitBreaker.allow]
  · intro k hk
    have hkl : (ts.take k).length = k := by
      rw [List.length_take, hlen]; omega
    have := failRun_no_trip (ts.take k) b (by rw [hkl]; omega)
    rw [this, h0, hkl]
    simp
  · intro c; rfl

/-- C7 witness: eleven failures at time 0 and a twelfth at time 5 trip the
breaker: counter cleared, open until 15, allow false at 14 and true at 15. -/
theorem C7_breaker_trip_witness :
    (failRun CircuitBreaker.init (List.replicate 11 0 ++ [5])).failures = 0
    ∧ (failRun CircuitBreaker.init (List.replicate 11 0 ++ [5])).open_until = 5 + 10 :=
  ⟨(C7_breaker_trip CircuitBreaker.init (List.replicate 11 0) 5
      rfl rfl rfl (by decide)).1,
   (C7_breaker_trip CircuitBreaker.init (List.replicate 11 0) 5
      rfl rfl rfl (by decide)).2.1⟩

/-- C5 counterexample: the frame that main.py writes for a 5-byte record is
[5,0,0,0] ++ record — the length prefix is little-endian, counts only the
record, and no message-type byte follows it — so a frame of the duplex
stream does not follow the claimed [length:4 big-endian][type:1][payload]
layout (which the frame sent by the SDK client does follow). -/
theorem C5_connector_frame_layout_differs :
    connectorFrame [42, 42, 42, 42, 42] = [5, 0, 0, 0, 42, 42, 42, 42, 42]
    ∧ specFrameLayout (connectorFrame [42, 42, 42, 42, 42]) = false
    ∧ specFrameLayout (send_frame 1 [42, 42, 42, 42, 42]) = true := by decide

/-- C5 amended: the SDK RuntimeClient frames follow the claimed layout — a
4-byte big-endian length counting the 1-byte type plus payload, then the
type byte, then the payload — and its receive path rejects any declared
length over the 10 MiB cap; the connector main.py instead writes frames as a
little-endian 4-byte length counting only the flatbuffer record, with no
type byte, and its read loop extracts the little-endian size with no cap
branch (it accepts a declared size one past the cap). -/
theorem C5_amended_layouts :
    (∀ ty payload, specFrameLayout (send_frame ty payload) = true)
    ∧ (∀ n, sdkCheckFrameLength n = Except.ok n ↔ n ≤ MAX_PAYLOAD_SIZE)
    ∧ (∀ n, n < 4294967296 → connectorReadSize (le32 n) = n)
    ∧ (∀ buf, (connectorFrame buf).length = 4 + buf.length
        ∧ (connectorFrame buf).drop 4 = buf
        ∧ (connectorFrame buf).take 4 = le32 buf.length)
    ∧ connectorReadSize (le32 (MAX_PAYLOAD_SIZE + 1)) = MAX_PAYLOAD_SIZE + 1 := by
  refine ⟨?_, ?_, ?_, ?_, by decide⟩
  · intro ty payload
    have hlen : (send_frame ty payload).length = 5 + payload.length := by
      simp [send_frame, be32]
      omega
    have htake : (send_frame ty payload).take 4
        = be32 (MESSAGE_TYPE_SIZE + payload.length) := by
      simp [send_frame, be32, List.take_succ_cons, List.take_zero]
    have harith : 5 + payload.length - 4 = MESSAGE_TYPE_SIZE + payload.length := by
      simp [MESSAGE_TYPE_SIZE]; omega
    simp [specFrameLayout, hlen, htake, harith]
  · intro n
    unfold sdkCheckFrameLength
    split_ifs with h
    · constructor
      · intro hc; exact absurd hc (by simp)
      · intro hc; omega
    · simp; omega
  · intro n hn
    simp [connectorReadSize, le32, le32dec]
    omega
  · intro buf
    refine ⟨?_, ?_, ?_⟩
    · simp [connectorFrame, le32]; omega
    · simp [connectorFrame, le32, List.drop_succ_cons, List.drop_zero]
    · simp [connectorFrame, le32, List.take_succ_cons, List.take_zero]

/-- C5 witness: the SDK frame for message type 1 and a 2-byte payload passes
the claimed layout check, and a small little-endian size round-trips through
the connector read loop. -/
theorem C5_amended_layouts_witness :
    specFrameLayout (send_frame 1 [7, 8]) = true
    ∧ connectorReadSize (le32 5) = 5 :=
  ⟨C5_amended_layouts.1 1 [7, 8], C5_amended_layouts.2.2.1 5 (by decide)⟩

/-- C1: every request accepted past the queue-depth check (dispatched while
not shutting down, with the inflight counter below MAX_QUEUE) produces
exactly one response frame on every path through the dispatcher — success,
parse failure, circuit-open rejection, security rejection, downstream
failure or timeout — never zero and never more than one. -/
theorem C1_exactly_one_frame (i : HandleIn)
    (h1 : i.shutting_down = false) (h2 : i.inflight < MAX_QUEUE) :
    (framesOf (worker i).1).length = 1 := by
  rw [worker_frames]
  rcases handle_frames i h1 h2 with ⟨a, hfr, _, _⟩ | ⟨hfr, _, _⟩ <;> rw [hfr] <;> rfl

/-- C1 witness: the concrete request whose three downstream attempts all
fail still gets exactly one response frame. -/
theorem C1_exactly_one_frame_witness : (framesOf (worker iBase).1).length = 1 :=
  C1_exactly_one_frame iBase rfl (by decide)

/-- C2 counterexample: a request whose downstream call times out (deadline
exceeded) is answered with a frame whose errorClass is SUCCESS — not TIMEOUT
and not any non-SUCCESS taxonomy value — because build_response hardcodes
ErrorClass.SUCCESS; the failure is only visible in the JSON payload status
500. -/
theorem C2_timeout_frame_says_success :
    framesOf (handle iTimeout).1 = [build_response 7 ⟨500, some "Internal Error"⟩]
    ∧ (build_response 7 ⟨500, some "Internal Error"⟩).error_class = ErrorClass.SUCCESS
    ∧ ErrorClass.SUCCESS ≠ ErrorClass.TIMEOUT
    ∧ Ev.brFailure ∈ (handle iTimeout).1 := by decide

/-- C2 amended: the errorClass field of every response frame the dispatcher
writes is SUCCESS, regardless of outcome; the outcome is communicated in the
JSON payload instead — status 500 with body "Internal Error" exactly on the
failure path (breaker.failure() called), status 200 on the success path
(breaker.success() called). -/
theorem C2_errorclass_always_success (i : HandleIn) :
    (∀ f ∈ framesOf (handle i).1, f.error_class = ErrorClass.SUCCESS)
    ∧ (Ev.brFailure ∈ (handle i).1 →
        (framesOf (handle i).1).map RespFrame.payload = [⟨500, some "Internal Error"⟩])
    ∧ (Ev.brSuccess ∈ (handle i).1 →
        ∃ a, (framesOf (handle i).1).map RespFrame.payload = [⟨200, a⟩]) := by
  rcases handle_cases i with hh | hh | ⟨evs, a, hfr, hnf, hns, hh⟩ | ⟨evs, hfr, hnf, hns, hh⟩
  · refine ⟨?_, ?_, ?_⟩
    · intro f hf; rw [hh] at hf; simp [framesOf] at hf
    · intro hbf; rw [hh] at hbf; simp at hbf
    · intro hbs; rw [hh] at hbs; simp at hbs
  · refine ⟨?_, ?_, ?_⟩
    · intro f hf
      rw [hh] at hf
      simp [framesOf] at hf
      rw [hf]; rfl
    · intro hbf; rw [hh] at hbf; simp at hbf
    · intro hbs; rw [hh] at hbs; simp at hbs
  · have hfull : framesOf (handle i).1 = [build_response i.request_id ⟨200, a⟩] := by
      rw [hh]
      simp only [framesOf, List.filterMap_append, List.filterMap_cons]
      simp only [framesOf] at hfr
      rw [hfr]
      rfl
    refine ⟨?_, ?_, ?_⟩
    · intro f hf
      rw [hfull] at hf
      simp at hf
      rw [hf]; rfl
    · intro hbf
      exfalso
      rw [hh] at hbf
      simp at hbf
      exact hnf hbf
    · intro _
      exact ⟨a, by rw [hfull]; rfl⟩
  · have hfull : framesOf (handle i).1
        = [build_response i.request_id ⟨500, some "Internal Error"⟩] := by
      rw [hh]
      simp only [framesOf, List.filterMap_append, List.filterMap_cons]
      simp only [framesOf] at hfr
      rw [hfr]
      rfl
    refine ⟨?_, ?_, ?_⟩
    · intro f hf
      rw [hfull] at hf
      simp at hf
      rw [hf]; rfl
    · intro _
      rw [hfull]; rfl
    · intro hbs
      exfalso
      rw [hh] at hbs
      simp at hbs
      exact hns hbs

/-- C2 witness: the amended statement at the concrete failing request — the
failure-path frame carries payload status 500 and errorClass SUCCESS. -/
theorem C2_errorclass_always_success_witness :
    (framesOf (handle iTimeout).1).map RespFrame.payload = [⟨500, some "Internal Error"⟩] :=
  (C2_errorclass_always_success iTimeout).2.1 (by decide)

/-- C6 counterexample: a request arriving with the queue-depth counter at
MAX_QUEUE is rejected with the synthetic 503 Overloaded response and never
triggers the downstream call — but it does acquire an admission permit: the
worker wrapper acquires the semaphore before handle() runs the queue check,
so the very first event of the rejected request's trace is the permit
acquisition. -/
theorem C6_rejected_request_acquires_permit :
    (worker iOverload).1 =
      [Ev.semAcquire, Ev.frame (build_response 9 ⟨503, some "Overloaded"⟩), Ev.semRelease]
    ∧ (worker iOverload).1.head? = some Ev.semAcquire
    ∧ Ev.semAcquire ∈ (worker iOverload).1
    ∧ iOverload.inflight = MAX_QUEUE := by decide

/-- C6 amended: every request that arrives when the queue-depth counter has
reached MAX_QUEUE is rejected immediately with a synthetic 503/Overloaded
response, never triggers the downstream HTTP call and leaves the breaker
untouched; it does, however, briefly hold an admission permit, acquired by
the worker wrapper before the queue check and released right after. -/
theorem C6_overload_path (i : HandleIn)
    (h1 : i.shutting_down = false) (h2 : MAX_QUEUE ≤ i.inflight) :
    (worker i).1 =
      [Ev.semAcquire, Ev.frame (build_response i.request_id ⟨503, some "Overloaded"⟩),
       Ev.semRelease]
    ∧ (worker i).2 = i.breaker
    ∧ Ev.httpPost ∉ (worker i).1
    ∧ Ev.semAcquire ∈ (worker i).1 := by
  have hh : handle i
      = ([Ev.frame (build_response i.request_id ⟨503, some "Overloaded"⟩)], i.breaker) := by
    unfold handle; simp [h1, h2]
  refine ⟨by simp [worker, hh], by simp [worker, hh], ?_, by simp [worker, hh]⟩
  simp [worker, hh]

/-- C6 witness: the amended statement at the concrete overloaded input. -/
theorem C6_overload_path_witness :
    (worker iOverload).1 =
      [Ev.semAcquire, Ev.frame (build_response 9 ⟨503, some "Overloaded"⟩), Ev.semRelease]
    ∧ Ev.httpPost ∉ (worker iOverload).1 :=
  ⟨(C6_overload_path iOverload rfl (by decide)).1,
   (C6_overload_path iOverload rfl (by decide)).2.2.1⟩

/-- C8: evidence that exhausted retries are recorded as a success. When all
MAX_RETRY + 1 = 3 downstream attempts fail, call_gemini's bare except
swallows every exception, sleeps one second after each attempt, falls off
the retry loop and returns None; handle then calls breaker.success() — not
breaker.failure() — and writes a status-200 frame with a null body and
errorClass SUCCESS, with no TRANSIENT failure response anywhere. -/
theorem C8_exhausted_retries_recorded_as_success :
    (call_gemini cfgLocal "ping"
        [AttemptResult.err, AttemptResult.err, AttemptResult.err]).2 = Except.ok none
    ∧ (call_gemini cfgLocal "ping"
        [AttemptResult.err, AttemptResult.err, AttemptResult.err]).1
      = [Ev.httpPost, Ev.sleep1, Ev.httpPost, Ev.sleep1, Ev.httpPost, Ev.sleep1]
    ∧ Ev.brSuccess ∈ (handle iBase).1
    ∧ Ev.brFailure ∉ (handle iBase).1
    ∧ framesOf (handle iBase).1 = [build_response 7 ⟨200, none⟩]
    ∧ (handle iBase).2 = iBase.breaker.success
    ∧ (build_response 7 ⟨200, none⟩).error_class = ErrorClass.SUCCESS := by decide

/-- C9 counterexample: the gate is a string-prefix check, not a host check.
With the simulator enabled and base_url http://127.0.0.1.evil.com/api — a
destination whose host is 127.0.0.1.evil.com, not the loopback host
127.0.0.1 — call_gemini raises no rejection and performs the HTTP attempt:
a configuration whose destination is not on loopback reaches network I/O. -/
theorem C9_prefix_gate_bypassed :
    urlHost cfgEvil.base_url = "127.0.0.1.evil.com".toList
    ∧ ¬ urlHost cfgEvil.base_url = "127.0.0.1".toList
    ∧ strStartsWith cfgEvil.base_url "http://127.0.0.1" = true
    ∧ (call_gemini cfgEvil "p" [AttemptResult.err]).2 = Except.ok none
    ∧ Ev.httpPost ∈ (call_gemini cfgEvil "p" [AttemptResult.err]).1 := by decide

/-- C9 amended: for every configuration in which the simulator is disabled,
or the simulator base URL does not start with the string "http://127.0.0.1",
call_gemini raises a rejection before any network I/O — no events at all are
performed — for every request payload, and the gate's outcome is independent
of the prompt.  (The check is a prefix test on the URL string, so base URLs
such as http://127.0.0.1.evil.com pass it despite not being on loopback.) -/
theorem C9_gate_guards_every_call (cfg : SimCfg) (p : String)
    (attempts : List AttemptResult)
    (h : cfg.enabled = false ∨ strStartsWith cfg.base_url "http://127.0.0.1" = false) :
    (call_gemini cfg p attempts).1 = []
    ∧ exceptIsError (call_gemini cfg p attempts).2 = true
    ∧ ∀ q : String, call_gemini cfg p attempts = call_gemini cfg q attempts := by
  rcases h with h | h
  · unfold call_gemini
    rw [h]
    exact ⟨rfl, rfl, fun q => rfl⟩
  · unfold call_gemini
    rw [h]
    cases he : cfg.enabled
    · exact ⟨rfl, rfl, fun q => rfl⟩
    · exact ⟨rfl, rfl, fun q => rfl⟩

/-- C9 witness: with the simulator disabled, no events and an error. -/
theorem C9_gate_guards_every_call_witness :
    (call_gemini ⟨false, "https://example.com"⟩ "p" [AttemptResult.ok "t"]).1 = []
    ∧ exceptIsError (call_gemini ⟨false, "https://example.com"⟩ "p"
        [AttemptResult.ok "t"]).2 = true :=
  ⟨(C9_gate_guards_every_call ⟨false, "https://example.com"⟩ "p"
      [AttemptResult.ok "t"] (Or.inl rfl)).1,
   (C9_gate_guards_every_call ⟨false, "https://example.com"⟩ "p"
      [AttemptResult.ok "t"] (Or.inl rfl)).2.1⟩

/-- C10: requests dispatched while the breaker is open are each routed
through the generic failure path (the brFailure event) and each invokes
breaker.failure(): eleven such rejections inside the open window raise the
counter to 11 without touching open_until, and a twelfth at time t re-trips
the breaker, re-opening it until t + 10 — the open window is extended by
fast-failed requests, so circuit-open rejections are not neutral for the
breaker state. -/
theorem C10_open_rejections_extend_window (base : HandleIn) (T : Nat)
    (ts : List Nat) (t : Nat)
    (h1 : base.shutting_down = false) (h2 : base.inflight < MAX_QUEUE)
    (hlen : ts.length = 11) (hmem : ∀ u ∈ ts, u < T) (ht : t < T) :
    dispatchRun base ⟨0, 12, T, 10⟩ (ts ++ [t]) = ⟨0, 12, t + 10, 10⟩
    ∧ (∀ k, k ≤ 11 → (dispatchRun base ⟨0, 12, T, 10⟩ (ts.take k)).failures = k
        ∧ (dispatchRun base ⟨0, 12, T, 10⟩ (ts.take k)).open_until = T)
    ∧ (∀ now, CircuitBreaker.allow ⟨0, 12, t + 10, 10⟩ now = true ↔ t + 10 ≤ now)
    ∧ Ev.brFailure ∈ (handle { base with breaker := ⟨0, 12, T, 10⟩, now := t }).1
    ∧ CircuitBreaker.allow (⟨0, 12, T, 10⟩ : CircuitBreaker) t = false := by
  have hallowT : ∀ u, u < T →
      CircuitBreaker.allow (⟨0, 12, T, 10⟩ : CircuitBreaker) u = false := by
    intro u hu
    simp [CircuitBreaker.allow]
    omega
  have h11 : dispatchRun base ⟨0, 12, T, 10⟩ ts = ⟨11, 12, T, 10⟩ := by
    have := dispatchRun_open_no_trip base h1 h2 ts ⟨0, 12, T, 10⟩
      (by intro u hu; exact hmem u hu) (by simp [hlen])
    simpa [hlen] using this
  have hlast : (handle { base with breaker := (⟨11, 12, T, 10⟩ : CircuitBreaker), now := t }).2
      = CircuitBreaker.failure ⟨11, 12, T, 10⟩ t := by
    have hallow : ({ base with breaker := (⟨11, 12, T, 10⟩ : CircuitBreaker), now := t }
        : HandleIn).breaker.allow
        ({ base with breaker := (⟨11, 12, T, 10⟩ : CircuitBreaker), now := t } : HandleIn).now
        = false := by
      simp [CircuitBreaker.allow]; omega
    rw [handle_circuit_open
      { base with breaker := (⟨11, 12, T, 10⟩ : CircuitBreaker), now := t } h1 h2 hallow]
  refine ⟨?_, ?_, ?_, ?_, hallowT t ht⟩
  · have happ : dispatchRun base ⟨0, 12, T, 10⟩ (ts ++ [t])
        = (handle { base with breaker := dispatchRun base ⟨0, 12, T, 10⟩ ts, now := t }).2 := by
      simp [dispatchRun, List.foldl_append]
    rw [happ, h11, hlast]
    simp [CircuitBreaker.failure]
  · intro k hk
    have hkl : (ts.take k).length = k := by
      rw [List.length_take, hlen]; omega
    have := dispatchRun_open_no_trip base h1 h2 (ts.take k) ⟨0, 12, T, 10⟩
      (by intro u hu; exact hmem u (List.mem_of_mem_take hu)) (by simp [hkl]; omega)
    rw [this]
    simp [hkl]
  · intro now
    simp [CircuitBreaker.allow]
  · have hallow : ({ base with breaker := (⟨0, 12, T, 10⟩ : CircuitBreaker), now := t }
        : HandleIn).breaker.allow
        ({ base with breaker := (⟨0, 12, T, 10⟩ : CircuitBreaker), now := t } : HandleIn).now
        = false := by
      simp [CircuitBreaker.allow]; omega
    rw [handle_circuit_open
      { base with breaker := (⟨0, 12, T, 10⟩ : CircuitBreaker), now := t } h1 h2 hallow]
    simp

/-- C10 witness: twelve rejections inside an open window ending at 100, the
last at time 1, re-open the breaker until 11. -/
theorem C10_open_rejections_extend_window_witness :
    dispatchRun iBase ⟨0, 12, 100, 10⟩ (List.replicate 11 0 ++ [1]) = ⟨0, 12, 11, 10⟩ :=
  (C10_open_rejections_extend_window iBase 100 (List.replicate 11 0) 1
    rfl (by decide) (by decide) (by decide) (by decide)).1

-- (end of file)
